import Mathlib

/-!
SmartCoolCare firmware: device profile resolution in `firmware/main/config.h`

`config.h` is a C preprocessor header.  It is embedded here as the list of its
directives, line by line, and run by a small preprocessor: a macro table, a
stack of open conditional groups, the messages of the `#error` directives
reached, and the macros redefined with a different replacement list.  The
integrator's choice on lines 8 to 11 of the header and the contents of
`secrets.h` are the two inputs.

A macro redefined with a different replacement list is treated as the GCC
preprocessor of the ESP32 toolchain treats it: the redefinition is diagnosed,
the new definition replaces the old one, and translation goes on.  Only
`#error` makes resolution fail.
-/

namespace SmartCoolCare

/-! ## The preprocessor -/

/-- Object-like macro names that occur in `config.h` and `secrets.h`. -/
inductive Macro
  | CONFIG_H
  | USE_KOELKAST_A
  | USE_KOELKAST_B
  | USE_KOELKAST_C
  | USE_KOELKAST_D
  | DEVICE_NAME
  | ESP32_DEVICE_MAC
  | BLE_SENSOR_MAC
  | PIN_DS18B20
  | WIFI_SSID
  | WIFI_PASSWORD
  | CONVEX_SECRET
  | CONVEX_URL
  | SERIAL_BAUD
  | SLEEP_DURATION
  | WIFI_TIMEOUT_MS
  | WATCHDOG_TIMEOUT
  | SCAN_DURATION
  deriving DecidableEq, Repr

/-- Replacement list of a macro: nothing, one string literal or one integer literal. -/
inductive Body
  | empty
  | str (s : String)
  | int (n : Nat)
  deriving DecidableEq, Repr

/-- Preprocessing directives used by the header. -/
inductive Line
  | define (m : Macro) (b : Body)
  | ifdef (m : Macro)
  | ifndef (m : Macro)
  | endif
  | error (msg : String)
  deriving Repr

/-- Preprocessor state. -/
structure State where
  /-- Macro table, most recent definition first. -/
  env : List (Macro × Body)
  /-- Open conditional groups, innermost first; `true` when the group is being processed. -/
  conds : List Bool
  /-- Messages of the `#error` directives reached, in source order. -/
  errors : List String
  /-- Macros redefined with a different replacement list, in source order. -/
  redefined : List Macro
  deriving Repr

def State.init : State := ⟨[], [], [], []⟩

def lookup (m : Macro) : List (Macro × Body) → Option Body
  | [] => none
  | (k, b) :: rest => if k = m then some b else lookup m rest

def defined (m : Macro) (env : List (Macro × Body)) : Bool :=
  (lookup m env).isSome

def remove (m : Macro) : List (Macro × Body) → List (Macro × Body)
  | [] => []
  | (k, b) :: rest => if k = m then remove m rest else (k, b) :: remove m rest

/-- A line is processed only when every enclosing conditional group is. -/
def State.active (st : State) : Bool :=
  st.conds.all id

/-- Directive `#define m b`: a first definition is entered; a redefinition with the same
replacement list is silent; one with a different list is diagnosed and the new
definition replaces the old one. -/
def State.define (st : State) (m : Macro) (b : Body) : State :=
  match lookup m st.env with
  | none => ⟨(m, b) :: st.env, st.conds, st.errors, st.redefined⟩
  | some old =>
    if old = b then st
    else ⟨(m, b) :: remove m st.env, st.conds, st.errors, st.redefined ++ [m]⟩

/-- One directive.  Directives inside a skipped group only keep track of the
nesting.  An `#error` that is reached records its message and processing goes
on, so that every `#error` reached is reported. -/
def step (st : State) : Line → State
  | .define m b => if st.active then st.define m b else st
  | .ifdef m => ⟨st.env, (st.active && defined m st.env) :: st.conds, st.errors, st.redefined⟩
  | .ifndef m => ⟨st.env, (st.active && !defined m st.env) :: st.conds, st.errors, st.redefined⟩
  | .endif => ⟨st.env, st.conds.tail, st.errors, st.redefined⟩
  | .error msg => if st.active then ⟨st.env, st.conds, st.errors ++ [msg], st.redefined⟩ else st

def preprocess (lines : List Line) : State :=
  lines.foldl step State.init

/-! ## The header -/

/-- Lines 8 to 11 of `config.h`: which `#define USE_KOELKAST_x` lines are not commented out. -/
structure Selection where
  A : Bool
  B : Bool
  C : Bool
  D : Bool
  deriving DecidableEq, Repr

/-- The selection in the header as it is in the repository: only `USE_KOELKAST_D`. -/
def Selection.shipped : Selection := ⟨false, false, false, true⟩

/-- Number of selectors defined. -/
def Selection.count (sel : Selection) : Nat :=
  sel.A.toNat + sel.B.toNat + sel.C.toNat + sel.D.toNat

/-- Modelled from the spec: `secrets.h` is included by `config.h` but is not part
of the sources.  It supplies the WiFi SSID, the WiFi credential and the
telemetry secret; each may be absent. -/
structure Secrets where
  WIFI_SSID : Option String
  WIFI_PASSWORD : Option String
  CONVEX_SECRET : Option String
  deriving Repr

def optDefine (m : Macro) : Option String → List Line
  | none => []
  | some s => [.define m (.str s)]

/-- Modelled from the spec: the directives of `secrets.h`. -/
def secrets_h (sec : Secrets) : List Line :=
  optDefine .WIFI_SSID sec.WIFI_SSID ++
  optDefine .WIFI_PASSWORD sec.WIFI_PASSWORD ++
  optDefine .CONVEX_SECRET sec.CONVEX_SECRET

def selectorLine (active : Bool) (m : Macro) : List Line :=
  if active then [.define m .empty] else []

def NoProfileSelected : String := "Fout: Kies een apparaat bovenaan in config.h!"

def MissingCredential : String := "WIFI_SSID niet gedefinieerd in secrets.h"

/-- Lines 1 to 47 of `config.h`: the include guard, the selection, the four
profile blocks and the guard on `DEVICE_NAME`. -/
def config_h_head (sel : Selection) : List Line :=
  [ .ifndef .CONFIG_H,
    .define .CONFIG_H .empty ] ++
  selectorLine sel.A .USE_KOELKAST_A ++
  selectorLine sel.B .USE_KOELKAST_B ++
  selectorLine sel.C .USE_KOELKAST_C ++
  selectorLine sel.D .USE_KOELKAST_D ++
  [ .ifdef .USE_KOELKAST_A,
    .define .DEVICE_NAME (.str "Koelkast_A"),
    .define .ESP32_DEVICE_MAC (.str "68:25:dd:f3:1a:80"),
    .define .BLE_SENSOR_MAC (.str "a4:c1:38:c8:92:5a"),
    .define .PIN_DS18B20 (.int 4),
    .endif,
    .ifdef .USE_KOELKAST_B,
    .define .DEVICE_NAME (.str "Koelkast_B"),
    .define .ESP32_DEVICE_MAC (.str "14:33:5c:38:28:fc"),
    .define .BLE_SENSOR_MAC (.str "a4:c1:38:e3:4d:72"),
    .define .PIN_DS18B20 (.int 4),
    .endif,
    .ifdef .USE_KOELKAST_C,
    .define .DEVICE_NAME (.str "Koelkast_C"),
    .define .ESP32_DEVICE_MAC (.str "08:3a:f2:7c:d5:00"),
    .define .BLE_SENSOR_MAC (.str "a4:c1:38:c8:92:5a"),
    .define .PIN_DS18B20 (.int 17),
    .endif,
    .ifdef .USE_KOELKAST_D,
    .define .DEVICE_NAME (.str "Koelkast_D"),
    .define .ESP32_DEVICE_MAC (.str "a4:c1:38:ae:94:ec"),
    .define .BLE_SENSOR_MAC (.str "a4:c1:38:ae:94:ec"),
    .define .PIN_DS18B20 (.int 17),
    .endif,
    .ifndef .DEVICE_NAME,
    .error NoProfileSelected,
    .endif ]

/-- Lines 55 to 72 of `config.h`: the guard on `WIFI_SSID`, the telemetry URL,
the system defaults and the end of the include guard. -/
def config_h_tail : List Line :=
  [ .ifndef .WIFI_SSID,
    .error MissingCredential,
    .endif,
    .define .CONVEX_URL (.str "https://laventecareauthsystems.onrender.com/api/v1/iot/telemetry"),
    .define .SERIAL_BAUD (.int 115200),
    .define .SLEEP_DURATION (.int 300),
    .define .WIFI_TIMEOUT_MS (.int 15000),
    .define .WATCHDOG_TIMEOUT (.int 30),
    .define .SCAN_DURATION (.int 10),
    .endif ]

/-- The directives of `config.h` in source order, with `#include "secrets.h"`
(line 53) replaced by the included directives. -/
def config_h (sel : Selection) (sec : Secrets) : List Line :=
  config_h_head sel ++ secrets_h sec ++ config_h_tail

/-! ## Resolution -/

/-- Resolution of the header: the macro table it leaves, or the messages of the
`#error` directives it reached. -/
def resolve (sel : Selection) (sec : Secrets) : Except (List String) (List (Macro × Body)) :=
  let st := preprocess (config_h sel sec)
  match st.errors with
  | [] => .ok st.env
  | e :: es => .error (e :: es)

/-- Macros that the header redefined with a different replacement list. -/
def redefinitions (sel : Selection) (sec : Secrets) : List Macro :=
  (preprocess (config_h sel sec)).redefined

def strOf (m : Macro) (env : List (Macro × Body)) : Option String :=
  match lookup m env with
  | some (.str s) => some s
  | _ => none

def intOf (m : Macro) (env : List (Macro × Body)) : Option Nat :=
  match lookup m env with
  | some (.int n) => some n
  | _ => none

structure DeviceProfile where
  name : String
  hostMac : String
  sensorMac : String
  probePin : Nat
  deriving DecidableEq, Repr

structure SystemDefaults where
  baud : Nat
  sleepDuration : Nat
  wifiTimeoutMs : Nat
  watchdogTimeout : Nat
  scanDuration : Nat
  deriving DecidableEq, Repr

/-- The device profile bound by a macro table. -/
def deviceProfile (env : List (Macro × Body)) : Option DeviceProfile := do
  let name ← strOf .DEVICE_NAME env
  let hostMac ← strOf .ESP32_DEVICE_MAC env
  let sensorMac ← strOf .BLE_SENSOR_MAC env
  let probePin ← intOf .PIN_DS18B20 env
  pure ⟨name, hostMac, sensorMac, probePin⟩

/-- The system defaults bound by a macro table. -/
def systemDefaults (env : List (Macro × Body)) : Option SystemDefaults := do
  let baud ← intOf .SERIAL_BAUD env
  let sleepDuration ← intOf .SLEEP_DURATION env
  let wifiTimeoutMs ← intOf .WIFI_TIMEOUT_MS env
  let watchdogTimeout ← intOf .WATCHDOG_TIMEOUT env
  let scanDuration ← intOf .SCAN_DURATION env
  pure ⟨baud, sleepDuration, wifiTimeoutMs, watchdogTimeout, scanDuration⟩

/-- The device profile a resolution yields, if it yields one. -/
def resolveProfile (sel : Selection) (sec : Secrets) : Option DeviceProfile :=
  match resolve sel sec with
  | .ok env => deviceProfile env
  | .error _ => none

/-! ## Selectors -/

inductive Selector
  | A
  | B
  | C
  | D
  deriving DecidableEq, Repr

/-- The selection with exactly one selector defined. -/
def Selection.only : Selector → Selection
  | .A => ⟨true, false, false, false⟩
  | .B => ⟨false, true, false, false⟩
  | .C => ⟨false, false, true, false⟩
  | .D => ⟨false, false, false, true⟩

def Selector.letter : Selector → String
  | .A => "A"
  | .B => "B"
  | .C => "C"
  | .D => "D"

/-- The active selector whose profile block comes last in the header. -/
def Selection.last (sel : Selection) : Option Selector :=
  if sel.D then some .D
  else if sel.C then some .C
  else if sel.B then some .B
  else if sel.A then some .A
  else none

/-! ## MAC address syntax -/

def isHexDigit (c : Char) : Bool :=
  c.isDigit || (97 ≤ c.toNat && c.toNat ≤ 102) || (65 ≤ c.toNat && c.toNat ≤ 70)

/-- Groups of two hexadecimal digits separated by a colon. -/
def isHexGroups : List Char → Bool
  | [a, b] => isHexDigit a && isHexDigit b
  | a :: b :: c :: rest => isHexDigit a && isHexDigit b && c == ':' && isHexGroups rest
  | _ => false

/-- Colon-hex MAC address of six octets: 17 characters, six groups of two
hexadecimal digits separated by a colon. -/
def isMac (s : String) : Bool :=
  s.length == 17 && isHexGroups s.data

/-! ## Running the header: the part before `secrets.h` and the part from it on -/

/-- Macros first defined after the device profile blocks. -/
def lateMacros : List Macro :=
  [.WIFI_SSID, .WIFI_PASSWORD, .CONVEX_SECRET, .CONVEX_URL, .SERIAL_BAUD, .SLEEP_DURATION,
   .WIFI_TIMEOUT_MS, .WATCHDOG_TIMEOUT, .SCAN_DURATION]

def optEntry (m : Macro) : Option String → List (Macro × Body)
  | none => []
  | some s => [(m, .str s)]

/-- Entries that lines 55 to 72 add to the macro table, most recent first. -/
def tailEnv : List (Macro × Body) :=
  [(.SCAN_DURATION, .int 10), (.WATCHDOG_TIMEOUT, .int 30), (.WIFI_TIMEOUT_MS, .int 15000),
   (.SLEEP_DURATION, .int 300), (.SERIAL_BAUD, .int 115200),
   (.CONVEX_URL, .str "https://laventecareauthsystems.onrender.com/api/v1/iot/telemetry")]

/-- Entries that `secrets.h` adds to the macro table, most recent first. -/
def secretsEnv (sec : Secrets) : List (Macro × Body) :=
  optEntry .CONVEX_SECRET sec.CONVEX_SECRET ++ optEntry .WIFI_PASSWORD sec.WIFI_PASSWORD ++
    optEntry .WIFI_SSID sec.WIFI_SSID

/-- The profile that the block of selector `X` binds when `X` alone is defined. -/
def headProfile (X : Selector) : Option DeviceProfile :=
  deviceProfile (preprocess (config_h_head (Selection.only X))).env

/-! ## Lemmas -/

theorem lookup_append_none (m : Macro) (xs ys : List (Macro × Body))
    (h : lookup m xs = none) : lookup m (xs ++ ys) = lookup m ys := by
  induction xs with
  | nil => rfl
  | cons x xs ih =>
    obtain ⟨k, b⟩ := x
    by_cases hk : k = m
    · simp [lookup, hk] at h
    · simp only [lookup, hk, if_false] at h
      simp only [List.cons_append, lookup, hk, if_false]
      exact ih h

theorem lookup_append_some (m : Macro) (xs ys : List (Macro × Body)) (b : Body)
    (h : lookup m xs = some b) : lookup m (xs ++ ys) = some b := by
  induction xs with
  | nil => simp [lookup] at h
  | cons x xs ih =>
    obtain ⟨k, c⟩ := x
    by_cases hk : k = m
    · simp only [lookup, hk, if_true] at h
      simp only [List.cons_append, lookup, hk, if_true]
      exact h
    · simp only [lookup, hk, if_false] at h
      simp only [List.cons_append, lookup, hk, if_false]
      exact ih h

theorem lookup_secretsEnv (sec : Secrets) (m : Macro) (h1 : m ≠ .CONVEX_SECRET)
    (h2 : m ≠ .WIFI_PASSWORD) (h3 : m ≠ .WIFI_SSID) : lookup m (secretsEnv sec) = none := by
  rcases sec with ⟨_ | _, _ | _, _ | _⟩ <;>
    simp [secretsEnv, optEntry, lookup, Ne.symm h1, Ne.symm h2, Ne.symm h3]

/-- Lines 53 to 72 run from a state in which the first 47 lines left the include
guard open and none of the later macros defined. -/
theorem tail_state (env : List (Macro × Body)) (errors : List String) (redefined : List Macro)
    (sec : Secrets) (hf : ∀ m ∈ lateMacros, lookup m env = none) :
    (secrets_h sec ++ config_h_tail).foldl step ⟨env, [true], errors, redefined⟩ =
      ⟨tailEnv ++ secretsEnv sec ++ env, [],
        errors ++ (if sec.WIFI_SSID.isSome then [] else [MissingCredential]), redefined⟩ := by
  have h1 := hf .WIFI_SSID (by decide)
  have h2 := hf .WIFI_PASSWORD (by decide)
  have h3 := hf .CONVEX_SECRET (by decide)
  have h4 := hf .CONVEX_URL (by decide)
  have h5 := hf .SERIAL_BAUD (by decide)
  have h6 := hf .SLEEP_DURATION (by decide)
  have h7 := hf .WIFI_TIMEOUT_MS (by decide)
  have h8 := hf .WATCHDOG_TIMEOUT (by decide)
  have h9 := hf .SCAN_DURATION (by decide)
  rcases sec with ⟨_ | _, _ | _, _ | _⟩ <;>
    simp [config_h_tail, secrets_h, optDefine, step, State.define, State.active, lookup,
      defined, h1, h2, h3, h4, h5, h6, h7, h8, h9, tailEnv, secretsEnv, optEntry]

theorem head_conds (sel : Selection) : (preprocess (config_h_head sel)).conds = [true] := by
  rcases sel with ⟨_ | _, _ | _, _ | _, _ | _⟩ <;> decide

theorem head_fresh (sel : Selection) :
    ∀ m ∈ lateMacros, lookup m (preprocess (config_h_head sel)).env = none := by
  rcases sel with ⟨_ | _, _ | _, _ | _, _ | _⟩ <;> decide

theorem head_errors (sel : Selection) :
    (preprocess (config_h_head sel)).errors =
      if sel.count = 0 then [NoProfileSelected] else [] := by
  rcases sel with ⟨_ | _, _ | _, _ | _, _ | _⟩ <;> decide

/-- The state the whole header leaves, in terms of the state its first 47 lines leave. -/
theorem preprocess_config_h (sel : Selection) (sec : Secrets) :
    preprocess (config_h sel sec) =
      ⟨tailEnv ++ secretsEnv sec ++ (preprocess (config_h_head sel)).env, [],
        (if sel.count = 0 then [NoProfileSelected] else []) ++
          (if sec.WIFI_SSID.isSome then [] else [MissingCredential]),
        (preprocess (config_h_head sel)).redefined⟩ := by
  have hc := head_conds sel
  have hf := head_fresh sel
  have he := head_errors sel
  unfold preprocess at hc hf he ⊢
  rw [config_h, List.append_assoc, List.foldl_append]
  generalize (config_h_head sel).foldl step State.init = st at hc hf he ⊢
  obtain ⟨env, conds, errors, redefined⟩ := st
  simp only at hc hf he
  subst hc he
  exact tail_state env _ redefined sec hf

theorem deviceProfile_append (xs env : List (Macro × Body))
    (h1 : lookup .DEVICE_NAME xs = none) (h2 : lookup .ESP32_DEVICE_MAC xs = none)
    (h3 : lookup .BLE_SENSOR_MAC xs = none) (h4 : lookup .PIN_DS18B20 xs = none) :
    deviceProfile (xs ++ env) = deviceProfile env := by
  unfold deviceProfile strOf intOf
  rw [lookup_append_none _ _ _ h1, lookup_append_none _ _ _ h2, lookup_append_none _ _ _ h3,
    lookup_append_none _ _ _ h4]

theorem systemDefaults_tailEnv (env : List (Macro × Body)) :
    systemDefaults (tailEnv ++ env) = some ⟨115200, 300, 15000, 30, 10⟩ := by
  unfold systemDefaults intOf
  rw [lookup_append_some .SERIAL_BAUD tailEnv env (.int 115200) (by decide),
    lookup_append_some .SLEEP_DURATION tailEnv env (.int 300) (by decide),
    lookup_append_some .WIFI_TIMEOUT_MS tailEnv env (.int 15000) (by decide),
    lookup_append_some .WATCHDOG_TIMEOUT tailEnv env (.int 30) (by decide),
    lookup_append_some .SCAN_DURATION tailEnv env (.int 10) (by decide)]
  rfl

/-- The device profile in the final macro table is the one the first 47 lines bound. -/
theorem deviceProfile_config_h (sel : Selection) (sec : Secrets) :
    deviceProfile (preprocess (config_h sel sec)).env =
      deviceProfile (preprocess (config_h_head sel)).env := by
  rw [preprocess_config_h]
  simp only
  rw [List.append_assoc, deviceProfile_append tailEnv _ (by decide) (by decide) (by decide)
    (by decide)]
  exact deviceProfile_append _ _
    (lookup_secretsEnv sec _ (by decide) (by decide) (by decide))
    (lookup_secretsEnv sec _ (by decide) (by decide) (by decide))
    (lookup_secretsEnv sec _ (by decide) (by decide) (by decide))
    (lookup_secretsEnv sec _ (by decide) (by decide) (by decide))

theorem systemDefaults_config_h (sel : Selection) (sec : Secrets) :
    systemDefaults (preprocess (config_h sel sec)).env = some ⟨115200, 300, 15000, 30, 10⟩ := by
  rw [preprocess_config_h]
  simp only
  rw [List.append_assoc]
  exact systemDefaults_tailEnv _

theorem redefinitions_eq (sel : Selection) (sec : Secrets) :
    redefinitions sel sec = (preprocess (config_h_head sel)).redefined := by
  unfold redefinitions
  rw [preprocess_config_h]

theorem resolve_ok (sel : Selection) (sec : Secrets) (h1 : 1 ≤ sel.count)
    (h2 : sec.WIFI_SSID.isSome = true) :
    resolve sel sec = .ok (preprocess (config_h sel sec)).env := by
  have hz : ¬ sel.count = 0 := by omega
  have he : (preprocess (config_h sel sec)).errors = [] := by
    rw [preprocess_config_h]
    simp [hz, h2]
  unfold resolve
  simp only
  rw [he]

theorem resolveProfile_ok (sel : Selection) (sec : Secrets) (h1 : 1 ≤ sel.count)
    (h2 : sec.WIFI_SSID.isSome = true) :
    resolveProfile sel sec = deviceProfile (preprocess (config_h_head sel)).env := by
  unfold resolveProfile
  rw [resolve_ok sel sec h1 h2]
  exact deviceProfile_config_h sel sec

theorem resolve_no_selector (sel : Selection) (sec : Secrets) (h : sel.count = 0) :
    resolve sel sec =
      .error (NoProfileSelected :: if sec.WIFI_SSID.isSome then [] else [MissingCredential]) := by
  unfold resolve
  rw [preprocess_config_h]
  simp [h]

theorem resolve_no_ssid (sel : Selection) (sec : Secrets) (h1 : 1 ≤ sel.count)
    (h2 : sec.WIFI_SSID = none) : resolve sel sec = .error [MissingCredential] := by
  have hz : ¬ sel.count = 0 := by omega
  unfold resolve
  rw [preprocess_config_h]
  simp [hz, h2]

theorem resolve_ok_iff (sel : Selection) (sec : Secrets) :
    (∃ env, resolve sel sec = .ok env) ↔ (1 ≤ sel.count ∧ sec.WIFI_SSID.isSome = true) := by
  constructor
  · rintro ⟨env, h⟩
    by_cases hz : sel.count = 0
    · rw [resolve_no_selector sel sec hz] at h
      cases h
    · cases hs : sec.WIFI_SSID with
      | none =>
        rw [resolve_no_ssid sel sec (by omega) hs] at h
        cases h
      | some s => exact ⟨by omega, rfl⟩
  · rintro ⟨h1, h2⟩
    exact ⟨_, resolve_ok sel sec h1 h2⟩

theorem resolveProfile_none (sel : Selection) (sec : Secrets)
    (h : ¬ (1 ≤ sel.count ∧ sec.WIFI_SSID.isSome = true)) : resolveProfile sel sec = none := by
  unfold resolveProfile
  cases hr : resolve sel sec with
  | error e => rfl
  | ok env => exact absurd ((resolve_ok_iff sel sec).1 ⟨env, hr⟩) h

theorem count_only (X : Selector) : (Selection.only X).count = 1 := by
  cases X <;> rfl

theorem count_eq_one_iff (sel : Selection) : sel.count = 1 ↔ ∃ X, sel = Selection.only X := by
  constructor
  · intro h
    rcases sel with ⟨_ | _, _ | _, _ | _, _ | _⟩ <;>
      first
        | exact absurd h (by decide)
        | exact ⟨.A, rfl⟩
        | exact ⟨.B, rfl⟩
        | exact ⟨.C, rfl⟩
        | exact ⟨.D, rfl⟩
  · rintro ⟨X, rfl⟩
    exact count_only X

theorem head_profile_last (sel : Selection) :
    deviceProfile (preprocess (config_h_head sel)).env =
      match sel.last with
      | some X => deviceProfile (preprocess (config_h_head (Selection.only X))).env
      | none => none := by
  rcases sel with ⟨_ | _, _ | _, _ | _, _ | _⟩ <;> decide

theorem last_none_iff (sel : Selection) : sel.last = none ↔ sel.count = 0 := by
  rcases sel with ⟨_ | _, _ | _, _ | _, _ | _⟩ <;> decide

theorem head_redefined (sel : Selection) :
    Macro.DEVICE_NAME ∈ (preprocess (config_h_head sel)).redefined ↔ 2 ≤ sel.count := by
  rcases sel with ⟨_ | _, _ | _, _ | _, _ | _⟩ <;> decide

theorem head_redefined_mac (sel : Selection) :
    Macro.ESP32_DEVICE_MAC ∈ (preprocess (config_h_head sel)).redefined ↔ 2 ≤ sel.count := by
  rcases sel with ⟨_ | _, _ | _, _ | _, _ | _⟩ <;> decide

theorem head_redefined_subset (sel : Selection) :
    (preprocess (config_h_head sel)).redefined ⊆
      [.DEVICE_NAME, .ESP32_DEVICE_MAC, .BLE_SENSOR_MAC, .PIN_DS18B20] := by
  rcases sel with ⟨_ | _, _ | _, _ | _, _ | _⟩ <;> decide

theorem head_redefined_nil (sel : Selection) :
    (preprocess (config_h_head sel)).redefined = [] ↔ sel.count ≤ 1 := by
  rcases sel with ⟨_ | _, _ | _, _ | _, _ | _⟩ <;> decide

theorem resolveProfile_only (X : Selector) (sec : Secrets) (h : sec.WIFI_SSID.isSome = true) :
    resolveProfile (Selection.only X) sec = headProfile X :=
  resolveProfile_ok _ sec (by rw [count_only]) h

theorem headProfile_distinct (X Y : Selector) (h : X ≠ Y) :
    (headProfile X).map DeviceProfile.name ≠ (headProfile Y).map DeviceProfile.name ∧
      (headProfile X).map DeviceProfile.hostMac ≠ (headProfile Y).map DeviceProfile.hostMac := by
  cases X <;> cases Y <;> first | exact absurd rfl h | decide

/-! ## The claims -/

/-- C1: with none of the four selectors defined, resolution raises the
`NoProfileSelected` error (the `#error` on `DEVICE_NAME`), followed only by the
credential error when `secrets.h` lacks `WIFI_SSID`, and yields no device
profile, whatever `secrets.h` defines. -/
theorem C1_no_selector_fails (sec : Secrets) :
    resolve ⟨false, false, false, false⟩ sec =
        .error (NoProfileSelected :: if sec.WIFI_SSID.isSome then [] else [MissingCredential]) ∧
      resolveProfile ⟨false, false, false, false⟩ sec = none :=
  ⟨resolve_no_selector _ sec rfl, resolveProfile_none _ sec (fun h => absurd h.1 (by decide))⟩

/-- C2, as stated, fails: with `USE_KOELKAST_C` and `USE_KOELKAST_D` both
defined and `WIFI_SSID` present, no `#error` is reached and resolution yields
the profile of `Koelkast_D`. -/
theorem C2_two_selectors_resolve :
    Selection.count ⟨false, false, true, true⟩ = 2 ∧
      (∃ env, resolve ⟨false, false, true, true⟩ ⟨some "net", some "pw", none⟩ = .ok env) ∧
      resolveProfile ⟨false, false, true, true⟩ ⟨some "net", some "pw", none⟩ =
        some ⟨"Koelkast_D", "a4:c1:38:ae:94:ec", "a4:c1:38:ae:94:ec", 17⟩ := by
  refine ⟨rfl, ⟨_, resolve_ok _ _ (by decide) rfl⟩, ?_⟩
  rw [resolveProfile_ok ⟨false, false, true, true⟩ ⟨some "net", some "pw", none⟩ (by decide) rfl]
  decide

/-- C2, amended: the header has no guard against several selectors.  Resolution
succeeds exactly when at least one selector is defined and `secrets.h` defines
`WIFI_SSID`; the profile it yields is that of the active selector whose block
comes last in the header (D, then C, then B, then A).  A conflict shows only as
redefinitions of the profile macros: every macro redefined is one of
`DEVICE_NAME`, `ESP32_DEVICE_MAC`, `BLE_SENSOR_MAC` and `PIN_DS18B20`; each of
`DEVICE_NAME` and `ESP32_DEVICE_MAC` is redefined exactly when two or more
selectors are defined; and no macro is redefined exactly when at most one is. -/
theorem C2_resolution_last_selector_wins (sel : Selection) (sec : Secrets) :
    ((∃ env, resolve sel sec = .ok env) ↔ (1 ≤ sel.count ∧ sec.WIFI_SSID.isSome = true)) ∧
      (resolveProfile sel sec =
        match sel.last with
        | some X => resolveProfile (Selection.only X) sec
        | none => none) ∧
      redefinitions sel sec ⊆
        [.DEVICE_NAME, .ESP32_DEVICE_MAC, .BLE_SENSOR_MAC, .PIN_DS18B20] ∧
      (Macro.DEVICE_NAME ∈ redefinitions sel sec ↔ 2 ≤ sel.count) ∧
      (Macro.ESP32_DEVICE_MAC ∈ redefinitions sel sec ↔ 2 ≤ sel.count) ∧
      (redefinitions sel sec = [] ↔ sel.count ≤ 1) := by
  refine ⟨resolve_ok_iff sel sec, ?_, ?_, ?_, ?_, ?_⟩
  · by_cases h : 1 ≤ sel.count ∧ sec.WIFI_SSID.isSome = true
    · rw [resolveProfile_ok sel sec h.1 h.2, head_profile_last sel]
      cases hl : sel.last with
      | none => rfl
      | some X =>
        simp only
        rw [resolveProfile_ok _ sec (by rw [count_only]) h.2]
    · rw [resolveProfile_none sel sec h]
      cases hl : sel.last with
      | none => rfl
      | some X =>
        simp only
        have hc : 1 ≤ sel.count := by
          have := (last_none_iff sel).not.1 (by rw [hl]; simp)
          omega
        rw [resolveProfile_none _ sec (fun hh => h ⟨hc, hh.2⟩)]
  · rw [redefinitions_eq]
    exact head_redefined_subset sel
  · rw [redefinitions_eq]
    exact head_redefined sel
  · rw [redefinitions_eq]
    exact head_redefined_mac sel
  · rw [redefinitions_eq]
    exact head_redefined_nil sel

/-- C3: when a profile is selected and `secrets.h` does not define `WIFI_SSID`,
resolution fails with exactly the `MissingCredential` error; when exactly one
selector is defined and `WIFI_SSID` is defined, no error is raised. -/
theorem C3_missing_ssid (sel : Selection) (sec : Secrets) :
    (1 ≤ sel.count → sec.WIFI_SSID = none → resolve sel sec = .error [MissingCredential]) ∧
      (sel.count = 1 → sec.WIFI_SSID.isSome = true →
        (preprocess (config_h sel sec)).errors = [] ∧ ∃ env, resolve sel sec = .ok env) := by
  refine ⟨resolve_no_ssid sel sec, fun h1 h2 => ⟨?_, _, resolve_ok sel sec (by omega) h2⟩⟩
  rw [preprocess_config_h]
  simp [h1, h2]

theorem C3_missing_ssid_witness :
    (Selection.count (Selection.only .B) = 1 ∧
      resolve (Selection.only .B) ⟨none, some "pw", none⟩ = .error [MissingCredential]) ∧
    (Selection.count (Selection.only .B) = 1 ∧
      (preprocess (config_h (Selection.only .B) ⟨some "net", none, none⟩)).errors = [] ∧
      ∃ env, resolve (Selection.only .B) ⟨some "net", none, none⟩ = .ok env) :=
  ⟨⟨rfl, (C3_missing_ssid (Selection.only .B) ⟨none, some "pw", none⟩).1 (by decide) rfl⟩,
    ⟨rfl, (C3_missing_ssid (Selection.only .B) ⟨some "net", none, none⟩).2 rfl rfl⟩⟩

/-- C4: for each selector X of A, B, C, D, resolution with only `USE_KOELKAST_X`
defined and `WIFI_SSID` defined succeeds, and the name of the profile it yields
is `Koelkast_` followed by X. -/
theorem C4_single_selector_name (X : Selector) (sec : Secrets)
    (h : sec.WIFI_SSID.isSome = true) :
    (∃ env, resolve (Selection.only X) sec = .ok env ∧
        (deviceProfile env).map DeviceProfile.name = some ("Koelkast_" ++ X.letter)) ∧
      (resolveProfile (Selection.only X) sec).map DeviceProfile.name =
        some ("Koelkast_" ++ X.letter) := by
  have hn : (headProfile X).map DeviceProfile.name = some ("Koelkast_" ++ X.letter) := by
    cases X <;> decide
  refine ⟨⟨_, resolve_ok _ sec (by rw [count_only]) h, ?_⟩, ?_⟩
  · rw [deviceProfile_config_h]
    exact hn
  · rw [resolveProfile_only X sec h]
    exact hn

theorem C4_single_selector_name_witness :
    (Secrets.WIFI_SSID ⟨some "net", some "pw", some "key"⟩).isSome = true ∧
      ((∃ env, resolve (Selection.only .B) ⟨some "net", some "pw", some "key"⟩ = .ok env ∧
          (deviceProfile env).map DeviceProfile.name = some ("Koelkast_" ++ Selector.letter .B)) ∧
        (resolveProfile (Selection.only .B) ⟨some "net", some "pw", some "key"⟩).map
          DeviceProfile.name = some ("Koelkast_" ++ Selector.letter .B)) :=
  ⟨rfl, C4_single_selector_name .B ⟨some "net", some "pw", some "key"⟩ rfl⟩

/-- C5: for each selector of A, B, C, D, the resolved profile has a host MAC and
a sensor MAC that are colon-hex MAC strings of 17 characters and six octets, and
a probe pin that is positive. -/
theorem C5_profile_well_formed (X : Selector) (sec : Secrets)
    (h : sec.WIFI_SSID.isSome = true) :
    ∃ p, resolveProfile (Selection.only X) sec = some p ∧
      isMac p.hostMac = true ∧ isMac p.sensorMac = true ∧ 0 < p.probePin := by
  rw [resolveProfile_only X sec h]
  cases X <;> exact ⟨_, rfl, by decide, by decide, by decide⟩

theorem C5_profile_well_formed_witness :
    (Secrets.WIFI_SSID ⟨some "net", none, none⟩).isSome = true ∧
      ∃ p, resolveProfile (Selection.only .C) ⟨some "net", none, none⟩ = some p ∧
        isMac p.hostMac = true ∧ isMac p.sensorMac = true ∧ 0 < p.probePin :=
  ⟨rfl, C5_profile_well_formed .C ⟨some "net", none, none⟩ rfl⟩

/-- C6: every resolution that succeeds, in particular each one with a single
selector, leaves the system defaults baud 115200, sleep duration 300, WiFi
timeout 15000 ms, watchdog timeout 30 and scan duration 10, whichever profile
was selected. -/
theorem C6_system_defaults (sel : Selection) (sec : Secrets) (h1 : 1 ≤ sel.count)
    (h2 : sec.WIFI_SSID.isSome = true) :
    ∃ env, resolve sel sec = .ok env ∧
      systemDefaults env = some ⟨115200, 300, 15000, 30, 10⟩ :=
  ⟨_, resolve_ok sel sec h1 h2, systemDefaults_config_h sel sec⟩

theorem C6_system_defaults_witness :
    1 ≤ Selection.count (Selection.only .A) ∧
      (Secrets.WIFI_SSID ⟨some "net", none, some "key"⟩).isSome = true ∧
      ∃ env, resolve (Selection.only .A) ⟨some "net", none, some "key"⟩ = .ok env ∧
        systemDefaults env = some ⟨115200, 300, 15000, 30, 10⟩ :=
  ⟨by decide, rfl, C6_system_defaults (Selection.only .A) ⟨some "net", none, some "key"⟩
    (by decide) rfl⟩

/-- C7: resolution with only `USE_KOELKAST_D` defined yields the name
`Koelkast_D`, host MAC and sensor MAC `a4:c1:38:ae:94:ec`, and probe pin 17. -/
theorem C7_selector_D (sec : Secrets) (h : sec.WIFI_SSID.isSome = true) :
    resolveProfile (Selection.only .D) sec =
      some ⟨"Koelkast_D", "a4:c1:38:ae:94:ec", "a4:c1:38:ae:94:ec", 17⟩ := by
  rw [resolveProfile_only .D sec h]
  decide

theorem C7_selector_D_witness :
    (Secrets.WIFI_SSID ⟨some "net", some "pw", none⟩).isSome = true ∧
      resolveProfile (Selection.only .D) ⟨some "net", some "pw", none⟩ =
        some ⟨"Koelkast_D", "a4:c1:38:ae:94:ec", "a4:c1:38:ae:94:ec", 17⟩ :=
  ⟨rfl, C7_selector_D ⟨some "net", some "pw", none⟩ rfl⟩

/-- C8: resolution with only `USE_KOELKAST_A` defined yields a profile with
probe pin 4 and host MAC `68:25:dd:f3:1a:80`. -/
theorem C8_selector_A (sec : Secrets) (h : sec.WIFI_SSID.isSome = true) :
    ∃ p, resolveProfile (Selection.only .A) sec = some p ∧
      p.probePin = 4 ∧ p.hostMac = "68:25:dd:f3:1a:80" := by
  rw [resolveProfile_only .A sec h]
  exact ⟨_, rfl, by decide, by decide⟩

theorem C8_selector_A_witness :
    (Secrets.WIFI_SSID ⟨some "thuis", none, none⟩).isSome = true ∧
      ∃ p, resolveProfile (Selection.only .A) ⟨some "thuis", none, none⟩ = some p ∧
        p.probePin = 4 ∧ p.hostMac = "68:25:dd:f3:1a:80" :=
  ⟨rfl, C8_selector_A ⟨some "thuis", none, none⟩ rfl⟩

/-- C9: in the header as it is in the repository exactly one selector,
`USE_KOELKAST_D`, is defined; with `WIFI_SSID` defined, resolving it reaches no
`#error`, redefines no macro, and yields the profile of `Koelkast_D`. -/
theorem C9_shipped_selection (sec : Secrets) (h : sec.WIFI_SSID.isSome = true) :
    Selection.shipped.count = 1 ∧ Selection.shipped = Selection.only .D ∧
      (preprocess (config_h Selection.shipped sec)).errors = [] ∧
      redefinitions Selection.shipped sec = [] ∧
      (∃ env, resolve Selection.shipped sec = .ok env) ∧
      resolveProfile Selection.shipped sec =
        some ⟨"Koelkast_D", "a4:c1:38:ae:94:ec", "a4:c1:38:ae:94:ec", 17⟩ := by
  refine ⟨rfl, rfl, ?_, ?_, ⟨_, resolve_ok _ sec (by decide) h⟩, ?_⟩
  · rw [preprocess_config_h]
    simp [h, Selection.shipped, Selection.count]
  · rw [redefinitions_eq]
    decide
  · rw [resolveProfile_ok _ sec (by decide) h]
    decide

theorem C9_shipped_selection_witness :
    (Secrets.WIFI_SSID ⟨some "net", some "pw", some "key"⟩).isSome = true ∧
      Selection.shipped.count = 1 ∧ Selection.shipped = Selection.only .D ∧
      (preprocess (config_h Selection.shipped ⟨some "net", some "pw", some "key"⟩)).errors = [] ∧
      redefinitions Selection.shipped ⟨some "net", some "pw", some "key"⟩ = [] ∧
      (∃ env, resolve Selection.shipped ⟨some "net", some "pw", some "key"⟩ = .ok env) ∧
      resolveProfile Selection.shipped ⟨some "net", some "pw", some "key"⟩ =
        some ⟨"Koelkast_D", "a4:c1:38:ae:94:ec", "a4:c1:38:ae:94:ec", 17⟩ :=
  ⟨rfl, C9_shipped_selection ⟨some "net", some "pw", some "key"⟩ rfl⟩

/-- C10: two distinct selectors of A, B, C, D resolve to profiles with different
names and different host MACs. -/
theorem C10_profiles_distinct (X Y : Selector) (sec : Secrets) (p q : DeviceProfile)
    (hX : resolveProfile (Selection.only X) sec = some p)
    (hY : resolveProfile (Selection.only Y) sec = some q) (hne : X ≠ Y) :
    p.name ≠ q.name ∧ p.hostMac ≠ q.hostMac := by
  have hs : sec.WIFI_SSID.isSome = true := by
    by_contra hc
    rw [resolveProfile_none _ sec (fun hh => hc hh.2)] at hX
    cases hX
  rw [resolveProfile_only X sec hs] at hX
  rw [resolveProfile_only Y sec hs] at hY
  have hd := headProfile_distinct X Y hne
  rw [hX, hY] at hd
  exact ⟨fun e => hd.1 (by simp [e]), fun e => hd.2 (by simp [e])⟩

theorem C10_profiles_distinct_witness :
    (resolveProfile (Selection.only .A) ⟨some "net", none, none⟩ =
        some ⟨"Koelkast_A", "68:25:dd:f3:1a:80", "a4:c1:38:c8:92:5a", 4⟩ ∧
      resolveProfile (Selection.only .C) ⟨some "net", none, none⟩ =
        some ⟨"Koelkast_C", "08:3a:f2:7c:d5:00", "a4:c1:38:c8:92:5a", 17⟩ ∧
      Selector.A ≠ Selector.C) ∧
    (DeviceProfile.name ⟨"Koelkast_A", "68:25:dd:f3:1a:80", "a4:c1:38:c8:92:5a", 4⟩ ≠
        DeviceProfile.name ⟨"Koelkast_C", "08:3a:f2:7c:d5:00", "a4:c1:38:c8:92:5a", 17⟩ ∧
      DeviceProfile.hostMac ⟨"Koelkast_A", "68:25:dd:f3:1a:80", "a4:c1:38:c8:92:5a", 4⟩ ≠
        DeviceProfile.hostMac ⟨"Koelkast_C", "08:3a:f2:7c:d5:00", "a4:c1:38:c8:92:5a", 17⟩) :=
  ⟨⟨by decide, by decide, by decide⟩,
    C10_profiles_distinct .A .C ⟨some "net", none, none⟩ _ _ (by decide) (by decide)
      (by decide)⟩

end SmartCoolCare
